import Mathlib

/-!
Verification of the VelvelSentinal delegation-chain and syndicate-governance
core, shallowly embedded from the Rust source.

Embedding conventions:

* The Rust source reads the wall clock (`SystemTime::now()`) inside each
  operation; the embedding passes the observed time `now : Nat` (seconds since
  the epoch) explicitly to every operation that reads it.
* Methods taking `&mut self` are embedded as state-passing functions returning
  the operation's `Result` together with the state as it is when the method
  returns, so early error returns provably leave the state exactly as it was.
* `HashMap<String, V>` is modelled as an association list with first-match
  lookup and in-place replacing insert; all construction sites insert fresh
  keys, so key uniqueness is preserved.
* Rust `u32`/`u64` additions and multiplications (which panic rather than wrap
  on overflow in checked builds) are modelled on unbounded `Nat`/`Int`.  The one
  silent, always-defined conversion in the source, the `reputation as i32` cast
  in `Syndicate::update_reputation`, is modelled exactly by `u32AsI32`.
-/

namespace VelvelSentinal

instance {ε α : Type} [DecidableEq ε] [DecidableEq α] :
    DecidableEq (Except ε α) := fun x y =>
  match x, y with
  | .error a, .error b =>
    if h : a = b then isTrue (congrArg Except.error h)
    else isFalse (fun hc => h (by cases hc; rfl))
  | .error _, .ok _ => isFalse (fun hc => Except.noConfusion hc)
  | .ok _, .error _ => isFalse (fun hc => Except.noConfusion hc)
  | .ok a, .ok b =>
    if h : a = b then isTrue (congrArg Except.ok h)
    else isFalse (fun hc => h (by cases hc; rfl))

/-- Association-list model of Rust's `HashMap` lookup (first binding wins). -/
def lookupKV {K V : Type} [DecidableEq K] : List (K × V) → K → Option V
  | [], _ => none
  | (k, v) :: rest, key => if k = key then some v else lookupKV rest key

/-- Association-list model of `HashMap::insert`: replace an existing binding in
place, otherwise append the new binding at the end. -/
def insertKV {K V : Type} [DecidableEq K] : List (K × V) → K → V → List (K × V)
  | [], key, val => [(key, val)]
  | (k, v) :: rest, key, val =>
    if k = key then (key, val) :: rest else (k, v) :: insertKV rest key val

/-! ## `sdkey-manager` crate: permissions, identities, delegation chains -/

/-- `permissions.rs`: overall permission level for agent operations. -/
inductive PermissionLevel
  | ReadOnly
  | Limited
  | Standard
  | Full
  | Admin
deriving DecidableEq, Repr

/-- `permissions.rs`: trading restrictions for an agent. -/
structure TradingRestrictions where
  max_trade_size_usd : Nat
  max_daily_volume_usd : Nat
  daily_loss_limit_bps : Nat
  max_leverage_bps : Nat
  allow_flash_loans : Bool
  max_slippage_bps : Nat
deriving DecidableEq, Repr

/-- `permissions.rs`: complete permission set for an agent. -/
structure AgentPermissions where
  level : PermissionLevel
  allowed_protocols : List String
  allowed_tokens : List String
  allowed_networks : List String
  trading : TradingRestrictions
  active_hours : Option (Nat × Nat)
  approval_threshold_usd : Option Nat
deriving DecidableEq, Repr

/-- `sdkey.rs`: an SDKey identifier (32 bytes derived from the public key);
      the governance core only ever compares identifiers for equality. -/
structure SDKeyId where
  bytes : List Nat
deriving DecidableEq, Repr

/-- `delegation.rs`: a delegation from one agent to another. -/
structure Delegation where
  delegator_id : SDKeyId
  delegatee_id : SDKeyId
  permissions : AgentPermissions
  signature : String
  created_at : Nat
  expires_at : Nat
  can_redelegate : Bool
deriving DecidableEq, Repr

/-- `Delegation::is_valid`: the delegation is still valid iff the current time
is strictly before its expiry. -/
def Delegation.is_valid (d : Delegation) (now : Nat) : Bool :=
  decide (now < d.expires_at)

/-- `delegation.rs`: errors of the delegation module. -/
inductive DelegationError
  | Expired
  | ExpiredAtIndex (i : Nat)
  | ChainBroken
  | ChainBrokenAtIndex (i : Nat)
  | RedelegationNotAllowed
  | InvalidExpiration
  | SerializationError (msg : String)
  | SigningError (msg : String)
  | InsufficientPermissions
deriving DecidableEq, Repr

/-- `delegation.rs`: ordered chain of delegations (root first, leaf last). -/
structure DelegationChain where
  delegations : List Delegation
deriving DecidableEq, Repr

/-- `DelegationChain::new` (the `Default` instance): the empty chain. -/
def DelegationChain.new : DelegationChain := ⟨[]⟩

/-- `DelegationChain::add`: validate continuity and redelegation permission
against the last link (when the chain is non-empty), then expiry of the new
delegation, then push it at the end. -/
def DelegationChain.add (c : DelegationChain) (now : Nat) (d : Delegation) :
    Except DelegationError Unit × DelegationChain :=
  match c.delegations.getLast? with
  | some last =>
    if last.delegatee_id ≠ d.delegator_id then
      (.error .ChainBroken, c)
    else if last.can_redelegate = false then
      (.error .RedelegationNotAllowed, c)
    else if (d.is_valid now) = false then
      (.error .Expired, c)
    else
      (.ok (), ⟨c.delegations ++ [d]⟩)
  | none =>
    if (d.is_valid now) = false then
      (.error .Expired, c)
    else
      (.ok (), ⟨c.delegations ++ [d]⟩)

/-- `DelegationChain::effective_permissions`: the grant on the last link. -/
def DelegationChain.effective_permissions (c : DelegationChain) :
    Option AgentPermissions :=
  c.delegations.getLast?.map Delegation.permissions

/-- `DelegationChain::len`. -/
def DelegationChain.len (c : DelegationChain) : Nat :=
  c.delegations.length

/-- The loop body of `DelegationChain::validate`: walk the remaining links at
position `i`, carrying the previous link (`none` exactly while `i = 0`); check
expiry of the current link first, then continuity with the previous one. -/
def validateLoop (now : Nat) : Option Delegation → Nat → List Delegation →
    Except DelegationError Unit
  | _, _, [] => .ok ()
  | prev, i, d :: rest =>
    if (d.is_valid now) = false then
      .error (.ExpiredAtIndex i)
    else
      match prev with
      | some p =>
        if p.delegatee_id ≠ d.delegator_id then
          .error (.ChainBrokenAtIndex i)
        else
          validateLoop now (some d) (i + 1) rest
      | none => validateLoop now (some d) (i + 1) rest

/-- `DelegationChain::validate`: re-walk the whole chain, reporting the index of
the first violation (expiry checked before continuity at each index). -/
def DelegationChain.validate (c : DelegationChain) (now : Nat) :
    Except DelegationError Unit :=
  validateLoop now none 0 c.delegations

/-- Continuity relation between consecutive links of a chain. -/
def linksTo (a b : Delegation) : Prop :=
  a.delegatee_id = b.delegator_id

instance : DecidableRel linksTo := fun a b =>
  inferInstanceAs (Decidable (a.delegatee_id = b.delegator_id))

/-! ## `zk-proofs` crate boundary

The governance core consumes a `PerformanceProof` purely as an opaque
present/absent token (`proof.is_none()` is the only observation), so only the
plain data fields are carried here. -/

/-- `proofs.rs`: a performance proof, opaque to the governance core. -/
structure PerformanceProof where
  id : String
  agent_id : String
  commitment : String
  proof_data : List Nat
  generated_at : Nat
  expires_at : Option Nat
deriving DecidableEq, Repr

/-! ## `psy-integration` crate: the syndicate governance engine -/

/-- `syndicate.rs`: syndicate configuration. -/
structure SyndicateConfig where
  id : String
  name : String
  description : String
  min_reputation : Nat
  requires_performance_proof : Bool
  min_pnl_bps : Int
  max_members : Nat
  voting_threshold_bps : Nat
  proposal_duration : Nat
  syndicate_fee_bps : Nat
  treasury_address : Option String
deriving DecidableEq, Repr

/-- `syndicate.rs`: member role. -/
inductive MemberRole
  | Member
  | Approver
  | Admin
  | Founder
deriving DecidableEq, Repr

/-- `syndicate.rs`: a syndicate member. -/
structure SyndicateMember where
  agent_id : String
  joined_at : Nat
  reputation : Nat
  contribution_score : Nat
  performance_proof : Option String
  role : MemberRole
  voting_power : Nat
  active : Bool
deriving DecidableEq, Repr

/-- `syndicate.rs`: proposal payload variant. -/
inductive ProposalType
  | AddMember (agent_id : String)
  | RemoveMember (agent_id : String)
  | UpdateConfig (field : String) (value : String)
  | ExecuteAction (action_type : String) (params : List (String × String))
  | DistributeProfits (amount : Nat)
  | Custom (title : String) (description : String)
deriving DecidableEq, Repr

/-- `syndicate.rs`: proposal status. -/
inductive ProposalStatus
  | Active
  | Passed
  | Rejected
  | Executed
  | Cancelled
deriving DecidableEq, Repr

/-- `syndicate.rs`: a governance proposal. -/
structure Proposal where
  id : String
  proposal_type : ProposalType
  proposer : String
  created_at : Nat
  deadline : Nat
  votes_for : Nat
  votes_against : Nat
  voters : List (String × Bool)
  status : ProposalStatus
  execution_result : Option String
deriving DecidableEq, Repr

/-- `syndicate.rs`: errors of the governance engine. -/
inductive SyndicateError
  | AlreadyMember (agent_id : String)
  | NotMember (agent_id : String)
  | MemberInactive
  | MemberLimitReached
  | InsufficientReputation (required actual : Nat)
  | ProofRequired
  | ProposalNotFound (proposal_id : String)
  | VotingClosed
  | VotingStillOpen
  | AlreadyVoted
  | FounderAlreadySet
  | PermissionDenied
deriving DecidableEq, Repr

/-- `syndicate.rs`: the syndicate aggregate (members, proposals, delegation
chains, proposal counter). -/
structure Syndicate where
  config : SyndicateConfig
  members : List (String × SyndicateMember)
  proposals : List (String × Proposal)
  delegations : List (String × DelegationChain)
  proposal_counter : Nat
deriving DecidableEq, Repr

/-- `Syndicate::new`. -/
def Syndicate.new (config : SyndicateConfig) : Syndicate :=
  { config := config
    members := []
    proposals := []
    delegations := []
    proposal_counter := 0 }

/-- `Syndicate::get_member`. -/
def Syndicate.get_member (s : Syndicate) (agent_id : String) :
    Option SyndicateMember :=
  lookupKV s.members agent_id

/-- `Syndicate::get_proposal`. -/
def Syndicate.get_proposal (s : Syndicate) (proposal_id : String) :
    Option Proposal :=
  lookupKV s.proposals proposal_id

/-- `Syndicate::member_count`. -/
def Syndicate.member_count (s : Syndicate) : Nat :=
  s.members.length

/-- `Syndicate::add_founder`: only on a syndicate with zero members; inserts a
Founder member with maximum reputation 1000 and voting power 1000. -/
def Syndicate.add_founder (s : Syndicate) (now : Nat) (agent_id : String) :
    Except SyndicateError Unit × Syndicate :=
  if s.members.length ≠ 0 then
    (.error .FounderAlreadySet, s)
  else
    let member : SyndicateMember :=
      { agent_id := agent_id
        joined_at := now
        reputation := 1000
        contribution_score := 0
        performance_proof := none
        role := .Founder
        voting_power := 1000
        active := true }
    (.ok (), { s with members := insertKV s.members agent_id member })

/-- `Syndicate::add_member`: insert a regular member with voting power equal to
the given reputation. -/
def Syndicate.add_member (s : Syndicate) (now : Nat) (agent_id : String)
    (reputation : Nat) : Except SyndicateError Unit × Syndicate :=
  if (lookupKV s.members agent_id).isSome then
    (.error (.AlreadyMember agent_id), s)
  else
    let member : SyndicateMember :=
      { agent_id := agent_id
        joined_at := now
        reputation := reputation
        contribution_score := 0
        performance_proof := none
        role := .Member
        voting_power := reputation
        active := true }
    (.ok (), { s with members := insertKV s.members agent_id member })

/-- `Syndicate::create_proposal`: allocate the next counter value, build the
proposal id `"{syndicate-id}-{counter}"`, insert an Active proposal with
deadline `now + proposal_duration`.  The source never returns an error here. -/
def Syndicate.create_proposal (s : Syndicate) (now : Nat) (proposer : String)
    (proposal_type : ProposalType) : Except SyndicateError Proposal × Syndicate :=
  let counter := s.proposal_counter + 1
  let proposal_id := s.config.id ++ "-" ++ toString counter
  let proposal : Proposal :=
    { id := proposal_id
      proposal_type := proposal_type
      proposer := proposer
      created_at := now
      deadline := now + s.config.proposal_duration
      votes_for := 0
      votes_against := 0
      voters := []
      status := .Active
      execution_result := none }
  (.ok proposal,
    { s with
        proposal_counter := counter
        proposals := insertKV s.proposals proposal_id proposal })

/-- `Syndicate::request_membership`: validate (already-member, member cap,
reputation, proof requirement) in order, then create an `AddMember` proposal
under the synthetic proposer `"system"` and return its id. -/
def Syndicate.request_membership (s : Syndicate) (now : Nat) (agent_id : String)
    (reputation : Nat) (proof : Option PerformanceProof) :
    Except SyndicateError String × Syndicate :=
  if (lookupKV s.members agent_id).isSome then
    (.error (.AlreadyMember agent_id), s)
  else if s.members.length ≥ s.config.max_members then
    (.error .MemberLimitReached, s)
  else if reputation < s.config.min_reputation then
    (.error (.InsufficientReputation s.config.min_reputation reputation), s)
  else if s.config.requires_performance_proof ∧ proof.isNone then
    (.error .ProofRequired, s)
  else
    match s.create_proposal now "system" (.AddMember agent_id) with
    | (.error e, s') => (.error e, s')
    | (.ok proposal, s') => (.ok proposal.id, s')

/-- `Syndicate::vote`: look the voter up, check active, look the proposal up,
check the deadline, check the voter has not voted, then record the boolean and
add the member's current voting power to the matching accumulator. -/
def Syndicate.vote (s : Syndicate) (now : Nat) (proposal_id voter : String)
    (approve : Bool) : Except SyndicateError Unit × Syndicate :=
  match lookupKV s.members voter with
  | none => (.error (.NotMember voter), s)
  | some member =>
    if member.active = false then
      (.error .MemberInactive, s)
    else
      let voting_power := member.voting_power
      match lookupKV s.proposals proposal_id with
      | none => (.error (.ProposalNotFound proposal_id), s)
      | some proposal =>
        if now > proposal.deadline then
          (.error .VotingClosed, s)
        else if (lookupKV proposal.voters voter).isSome then
          (.error .AlreadyVoted, s)
        else
          let proposal' :=
            { proposal with
                voters := insertKV proposal.voters voter approve
                votes_for :=
                  if approve then proposal.votes_for + voting_power
                  else proposal.votes_for
                votes_against :=
                  if approve then proposal.votes_against
                  else proposal.votes_against + voting_power }
          (.ok (), { s with proposals := insertKV s.proposals proposal_id proposal' })

/-- The live total voting power read by `finalize_proposal`: the sum of
`voting_power` over all currently active members. -/
def activeVotingPower (members : List (String × SyndicateMember)) : Nat :=
  (((members.map Prod.snd).filter (fun m => m.active)).map
    (fun m => m.voting_power)).sum

/-- Helper for `finalize_proposal`: record the computed status back into the
proposal map (the in-place write through `get_mut` in the source). -/
def Syndicate.setProposalStatus (s : Syndicate) (proposal_id : String)
    (proposal : Proposal) (st : ProposalStatus) : Syndicate :=
  { s with
      proposals := insertKV s.proposals proposal_id { proposal with status := st } }

/-- `Syndicate::finalize_proposal`: deadline guard (only while the proposal is
still Active), 20% quorum rule against live active voting power, then the
basis-points pass rule over votes cast. -/
def Syndicate.finalize_proposal (s : Syndicate) (now : Nat)
    (proposal_id : String) : Except SyndicateError ProposalStatus × Syndicate :=
  match lookupKV s.proposals proposal_id with
  | none => (.error (.ProposalNotFound proposal_id), s)
  | some proposal =>
    if now ≤ proposal.deadline ∧ proposal.status = .Active then
      (.error .VotingStillOpen, s)
    else
      let total_votes := proposal.votes_for + proposal.votes_against
      let total_voting_power := activeVotingPower s.members
      let quorum_threshold := total_voting_power / 5
      if total_votes < quorum_threshold then
        (.ok .Rejected, s.setProposalStatus proposal_id proposal .Rejected)
      else
        let threshold := total_votes * s.config.voting_threshold_bps / 10000
        if proposal.votes_for ≥ threshold then
          (.ok .Passed, s.setProposalStatus proposal_id proposal .Passed)
        else
          (.ok .Rejected, s.setProposalStatus proposal_id proposal .Rejected)

/-- Rust's `u32 as i32` cast (two's-complement reinterpretation), used by
`update_reputation` on the stored reputation. -/
def u32AsI32 (r : Nat) : Int :=
  if r < 2 ^ 31 then (r : Int) else (r : Int) - 2 ^ 32

/-- Rust's `i32::clamp(0, 1000)`. -/
def clampRep (x : Int) : Int :=
  max 0 (min x 1000)

/-- `Syndicate::update_reputation`: `(reputation as i32 + delta).clamp(0, 1000)
as u32`, mirrored into voting power and returned. -/
def Syndicate.update_reputation (s : Syndicate) (agent_id : String)
    (delta : Int) : Except SyndicateError Nat × Syndicate :=
  match lookupKV s.members agent_id with
  | none => (.error (.NotMember agent_id), s)
  | some member =>
    let new_rep := (clampRep (u32AsI32 member.reputation + delta)).toNat
    (.ok new_rep,
      { s with
          members := insertKV s.members agent_id
            { member with reputation := new_rep, voting_power := new_rep } })

/-- `Syndicate::record_contribution`. -/
def Syndicate.record_contribution (s : Syndicate) (agent_id : String)
    (amount : Nat) : Except SyndicateError Unit × Syndicate :=
  match lookupKV s.members agent_id with
  | none => (.error (.NotMember agent_id), s)
  | some member =>
    (.ok (),
      { s with
          members := insertKV s.members agent_id
            { member with contribution_score := member.contribution_score + amount } })

/-! ## Spec-side comparison definition -/

/-- Modelled from the spec's words (claim C7): the new reputation is the old
value plus the signed delta, clamped to the range `[0, 1000]`. -/
def specClaimedReputation (old : Nat) (delta : Int) : Nat :=
  (max 0 (min ((old : Int) + delta) 1000)).toNat

/-! ## Concrete states used by witnesses and counterexamples -/

/-- A concrete configuration: id `"syn"`, 50% pass threshold, 100-second
proposal duration, no reputation or proof requirement to join. -/
def cfgA : SyndicateConfig :=
  { id := "syn"
    name := "Test"
    description := ""
    min_reputation := 0
    requires_performance_proof := false
    min_pnl_bps := 0
    max_members := 100
    voting_threshold_bps := 5000
    proposal_duration := 100
    syndicate_fee_bps := 500
    treasury_address := none }

/-- A concrete active member with the given id and voting power. -/
def mkMember (agent_id : String) (power : Nat) : SyndicateMember :=
  { agent_id := agent_id
    joined_at := 0
    reputation := power
    contribution_score := 0
    performance_proof := none
    role := .Member
    voting_power := power
    active := true }

/-- A concrete Active proposal with the given id and vote tallies, deadline 100,
nobody recorded in the voter map. -/
def mkProposal (proposal_id : String) (pf pa : Nat) : Proposal :=
  { id := proposal_id
    proposal_type := .Custom "t" "d"
    proposer := "founder"
    created_at := 0
    deadline := 100
    votes_for := pf
    votes_against := pa
    voters := []
    status := .Active
    execution_result := none }

/-- A concrete syndicate: two active members of power 1000 each (total voting
power 2000, quorum threshold 400) and four Active proposals with tallies
(1500, 500), (900, 1100), (100, 100) and (200, 200). -/
def exSynd : Syndicate :=
  { config := cfgA
    members := [("m1", mkMember "m1" 1000), ("m2", mkMember "m2" 1000)]
    proposals :=
      [("syn-1", mkProposal "syn-1" 1500 500),
       ("syn-2", mkProposal "syn-2" 900 1100),
       ("syn-3", mkProposal "syn-3" 100 100),
       ("syn-4", mkProposal "syn-4" 200 200)]
    delegations := []
    proposal_counter := 4 }

/-- Flow state for claim C3: a fresh syndicate whose founder was added at
time 0. -/
def c3s1 : Syndicate := ((Syndicate.new cfgA).add_founder 0 "founder").2

/-- Flow state for claim C3: proposal `"syn-1"` created at time 0 (deadline
100). -/
def c3s2 : Syndicate := (c3s1.create_proposal 0 "founder" (.Custom "t" "d")).2

/-- Flow state for claim C3: the founder voted for at time 50. -/
def c3s3 : Syndicate := (c3s2.vote 50 "syn-1" "founder" true).2

/-- Flow state for claim C3: `"syn-1"` finalized at time 200 (Passed). -/
def c3s4 : Syndicate := (c3s3.finalize_proposal 200 "syn-1").2

/-- Flow state for claim C3: a member of voting power 100000 admitted after the
proposal reached its terminal status. -/
def c3s5 : Syndicate := (c3s4.add_member 300 "whale" 100000).2

/-- A syndicate holding one member whose stored reputation is `2^31` (a value
`Syndicate::add_member` accepts unchecked), exercising the `as i32` cast in
`update_reputation`. -/
def bigSynd : Syndicate :=
  { config := cfgA
    members := [("a", mkMember "a" (2 ^ 31))]
    proposals := []
    delegations := []
    proposal_counter := 0 }

/-- An empty permission grant for concrete delegations (its contents are never
inspected by the chain operations under verification). -/
def noPermissions : AgentPermissions :=
  { level := .Limited
    allowed_protocols := []
    allowed_tokens := []
    allowed_networks := []
    trading :=
      { max_trade_size_usd := 0
        max_daily_volume_usd := 0
        daily_loss_limit_bps := 0
        max_leverage_bps := 0
        allow_flash_loans := false
        max_slippage_bps := 0 }
    active_hours := none
    approval_threshold_usd := none }

/-- A concrete delegation from identity `[f]` to identity `[t]` expiring at
`exp`. -/
def mkDelegation (f t exp : Nat) (redel : Bool) : Delegation :=
  { delegator_id := ⟨[f]⟩
    delegatee_id := ⟨[t]⟩
    permissions := noPermissions
    signature := "sig"
    created_at := 0
    expires_at := exp
    can_redelegate := redel }

/-- Chain `1→2→3→4` whose middle link expires at time 10. -/
def chExpMid : DelegationChain :=
  ⟨[mkDelegation 1 2 100 true, mkDelegation 2 3 10 true,
    mkDelegation 3 4 100 true]⟩

/-- Chain whose second link starts at identity `[9]`, breaking continuity at
index 1. -/
def chBroken : DelegationChain :=
  ⟨[mkDelegation 1 2 100 true, mkDelegation 9 3 100 true]⟩

/-- Chain `1→2→3` whose first link expires at time 10. -/
def chEarlyExpired : DelegationChain :=
  ⟨[mkDelegation 1 2 10 true, mkDelegation 2 3 100 true]⟩

/-- A fully continuous chain `1→2→3` with both links valid until time 100. -/
def chOk : DelegationChain :=
  ⟨[mkDelegation 1 2 100 true, mkDelegation 2 3 100 true]⟩

/-! ## Helper lemmas -/

theorem lookupKV_insertKV_self {K V : Type} [DecidableEq K]
    (m : List (K × V)) (k : K) (v : V) :
    lookupKV (insertKV m k v) k = some v := by
  induction m with
  | nil => simp [insertKV, lookupKV]
  | cons kv rest ih =>
    obtain ⟨a, b⟩ := kv
    by_cases h : a = k
    · simp [insertKV, h, lookupKV]
    · simp [insertKV, h, lookupKV, ih]

theorem insertKV_self_of_lookupKV {K V : Type} [DecidableEq K]
    (m : List (K × V)) (k : K) (v : V) (h : lookupKV m k = some v) :
    insertKV m k v = m := by
  induction m with
  | nil => simp [lookupKV] at h
  | cons kv rest ih =>
    obtain ⟨a, b⟩ := kv
    by_cases hak : a = k
    · simp only [lookupKV, if_pos hak, Option.some.injEq] at h
      simp [insertKV, hak, h]
    · simp only [lookupKV, if_neg hak] at h
      simp [insertKV, hak, ih h]

/-! ## Claim theorems -/

/-- C8: for every proposal whose status is Active, calling `finalize_proposal`
while `now ≤ deadline` fails with `VotingStillOpen` and leaves the whole state
(in particular the proposal's status) unchanged, for any vote tally. -/
theorem C8_finalize_before_deadline (s : Syndicate) (now : Nat) (pid : String)
    (p : Proposal) (hp : lookupKV s.proposals pid = some p)
    (hact : p.status = .Active) (hdl : now ≤ p.deadline) :
    s.finalize_proposal now pid = (.error .VotingStillOpen, s) := by
  simp [Syndicate.finalize_proposal, hp, hact, hdl]

theorem C8_witness :
    exSynd.finalize_proposal 50 "syn-1" = (.error .VotingStillOpen, exSynd) :=
  C8_finalize_before_deadline exSynd 50 "syn-1" (mkProposal "syn-1" 1500 500)
    (by decide) (by decide) (by decide)

/-- C6: `vote` fails with `NotMember` for an unknown voter, `MemberInactive`
for a deactivated member, `ProposalNotFound` for an unknown proposal,
`VotingClosed` when `now > deadline`, `AlreadyVoted` when the voter already
appears in the proposal's voter map (so a second vote by the same member always
fails); on success it records the voter's boolean exactly once and adds the
member's current voting power (as read from the member map at vote time) to the
matching accumulator. -/
theorem C6_vote (s : Syndicate) (now : Nat) (pid voter : String) (approve : Bool) :
    (lookupKV s.members voter = none →
      s.vote now pid voter approve = (.error (.NotMember voter), s)) ∧
    (∀ m, lookupKV s.members voter = some m → m.active = false →
      s.vote now pid voter approve = (.error .MemberInactive, s)) ∧
    (∀ m, lookupKV s.members voter = some m → m.active = true →
      lookupKV s.proposals pid = none →
      s.vote now pid voter approve = (.error (.ProposalNotFound pid), s)) ∧
    (∀ m p, lookupKV s.members voter = some m → m.active = true →
      lookupKV s.proposals pid = some p → now > p.deadline →
      s.vote now pid voter approve = (.error .VotingClosed, s)) ∧
    (∀ m p, lookupKV s.members voter = some m → m.active = true →
      lookupKV s.proposals pid = some p → now ≤ p.deadline →
      (lookupKV p.voters voter).isSome →
      s.vote now pid voter approve = (.error .AlreadyVoted, s)) ∧
    (∀ m p, lookupKV s.members voter = some m → m.active = true →
      lookupKV s.proposals pid = some p → now ≤ p.deadline →
      lookupKV p.voters voter = none →
      s.vote now pid voter approve =
        (.ok (),
         { s with
             proposals := insertKV s.proposals pid
               { p with
                   voters := insertKV p.voters voter approve
                   votes_for :=
                     if approve then p.votes_for + m.voting_power else p.votes_for
                   votes_against :=
                     if approve then p.votes_against
                     else p.votes_against + m.voting_power } })) := by
  refine ⟨?_, ?_, ?_, ?_, ?_, ?_⟩
  · intro hm
    simp [Syndicate.vote, hm]
  · intro m hm hact
    simp [Syndicate.vote, hm, hact]
  · intro m hm hact hp
    simp [Syndicate.vote, hm, hact, hp]
  · intro m p hm hact hp hdl
    simp [Syndicate.vote, hm, hact, hp, hdl]
  · intro m p hm hact hp hdl hvoted
    simp [Syndicate.vote, hm, hact, hp, Nat.not_lt.mpr hdl, hvoted]
  · intro m p hm hact hp hdl hvoted
    simp [Syndicate.vote, hm, hact, hp, Nat.not_lt.mpr hdl, hvoted]

theorem C6_witness :
    exSynd.vote 50 "syn-1" "m1" true =
      (.ok (),
       { exSynd with
           proposals := insertKV exSynd.proposals "syn-1"
             { mkProposal "syn-1" 1500 500 with
                 voters := insertKV (mkProposal "syn-1" 1500 500).voters "m1" true
                 votes_for := if true then 1500 + 1000 else 1500
                 votes_against := if true then 500 else 500 + 1000 } }) := by
  have h := (C6_vote exSynd 50 "syn-1" "m1" true).2.2.2.2.2
    (mkMember "m1" 1000) (mkProposal "syn-1" 1500 500)
    (by decide) (by decide) (by decide) (by decide) (by decide)
  exact h

/-- C5: `DelegationChain::add` applies its checks in order: on a non-empty
chain it fails with `ChainBroken` whenever the new delegation's delegator
differs from the last link's delegatee (regardless of chain length), then with
`RedelegationNotAllowed` when the last link forbids redelegation, then with
`Expired` when the new delegation is already past its expiry (this last check
being the only one performed on an empty chain, where the first two vacuously
succeed); on success the link is appended at the end without reordering. -/
theorem C5_chain_add (c : DelegationChain) (now : Nat) (d : Delegation) :
    (∀ last, c.delegations.getLast? = some last →
      last.delegatee_id ≠ d.delegator_id →
      c.add now d = (.error .ChainBroken, c)) ∧
    (∀ last, c.delegations.getLast? = some last →
      last.delegatee_id = d.delegator_id → last.can_redelegate = false →
      c.add now d = (.error .RedelegationNotAllowed, c)) ∧
    ((c.delegations = [] ∨
        ∃ last, c.delegations.getLast? = some last ∧
          last.delegatee_id = d.delegator_id ∧ last.can_redelegate = true) →
      d.expires_at ≤ now →
      c.add now d = (.error .Expired, c)) ∧
    ((c.delegations = [] ∨
        ∃ last, c.delegations.getLast? = some last ∧
          last.delegatee_id = d.delegator_id ∧ last.can_redelegate = true) →
      now < d.expires_at →
      c.add now d = (.ok (), ⟨c.delegations ++ [d]⟩)) := by
  refine ⟨?_, ?_, ?_, ?_⟩
  · intro last hlast hne
    simp [DelegationChain.add, hlast, hne]
  · intro last hlast heq hred
    simp [DelegationChain.add, hlast, heq, hred]
  · rintro (hnil | ⟨last, hlast, heq, hred⟩) hexp
    · have hnone : c.delegations.getLast? = none := by simp [hnil]
      simp [DelegationChain.add, hnone, Delegation.is_valid, Nat.not_lt.mpr hexp]
    · simp [DelegationChain.add, hlast, heq, hred, Delegation.is_valid,
        Nat.not_lt.mpr hexp]
  · rintro (hnil | ⟨last, hlast, heq, hred⟩) hval
    · have hnone : c.delegations.getLast? = none := by simp [hnil]
      simp [DelegationChain.add, hnone, Delegation.is_valid, hval]
    · simp [DelegationChain.add, hlast, heq, hred, Delegation.is_valid, hval]

theorem C5_witness :
    chBroken.add 50 (mkDelegation 5 7 100 true) =
      (.error .ChainBroken, chBroken) :=
  (C5_chain_add chBroken 50 (mkDelegation 5 7 100 true)).1
    (mkDelegation 9 3 100 true) (by decide) (by decide)

/-- C9: whenever any operation of the governance core or the delegation chain
(`add_founder`, `request_membership`, `add_member`, `vote`,
`finalize_proposal`, `update_reputation`, `record_contribution`,
`DelegationChain::add`) returns an error, the state as returned is exactly the
state passed in: every validation happens before any write. -/
theorem C9_error_frame :
    (∀ (s : Syndicate) (now : Nat) (a : String) (e : SyndicateError),
      (s.add_founder now a).1 = .error e → (s.add_founder now a).2 = s) ∧
    (∀ (s : Syndicate) (now : Nat) (a : String) (rep : Nat)
        (proof : Option PerformanceProof) (e : SyndicateError),
      (s.request_membership now a rep proof).1 = .error e →
      (s.request_membership now a rep proof).2 = s) ∧
    (∀ (s : Syndicate) (now : Nat) (a : String) (rep : Nat) (e : SyndicateError),
      (s.add_member now a rep).1 = .error e → (s.add_member now a rep).2 = s) ∧
    (∀ (s : Syndicate) (now : Nat) (pid voter : String) (b : Bool)
        (e : SyndicateError),
      (s.vote now pid voter b).1 = .error e → (s.vote now pid voter b).2 = s) ∧
    (∀ (s : Syndicate) (now : Nat) (pid : String) (e : SyndicateError),
      (s.finalize_proposal now pid).1 = .error e →
      (s.finalize_proposal now pid).2 = s) ∧
    (∀ (s : Syndicate) (a : String) (delta : Int) (e : SyndicateError),
      (s.update_reputation a delta).1 = .error e →
      (s.update_reputation a delta).2 = s) ∧
    (∀ (s : Syndicate) (a : String) (amt : Nat) (e : SyndicateError),
      (s.record_contribution a amt).1 = .error e →
      (s.record_contribution a amt).2 = s) ∧
    (∀ (c : DelegationChain) (now : Nat) (d : Delegation) (e : DelegationError),
      (c.add now d).1 = .error e → (c.add now d).2 = c) := by
  refine ⟨?_, ?_, ?_, ?_, ?_, ?_, ?_, ?_⟩
  · intro s now a e
    unfold Syndicate.add_founder
    repeat' split
    all_goals intro h
    all_goals first | rfl | simp_all
  · intro s now a rep proof e
    unfold Syndicate.request_membership
    repeat' split
    all_goals intro h
    all_goals first | rfl | simp_all [Syndicate.create_proposal]
  · intro s now a rep e
    unfold Syndicate.add_member
    repeat' split
    all_goals intro h
    all_goals first | rfl | simp_all
  · intro s now pid voter b e
    unfold Syndicate.vote
    repeat' split
    all_goals intro h
    all_goals first | rfl | simp_all
  · intro s now pid e
    unfold Syndicate.finalize_proposal
    rcases hp : lookupKV s.proposals pid with _ | p <;> simp only [hp]
    · simp
    · by_cases hg : now ≤ p.deadline ∧ p.status = ProposalStatus.Active
      · simp [hg]
      · by_cases hq : p.votes_for + p.votes_against < activeVotingPower s.members / 5
        · simp [hg, hq]
        · by_cases ht : (p.votes_for + p.votes_against) *
              s.config.voting_threshold_bps / 10000 ≤ p.votes_for
          · simp [hg, hq, ht]
          · simp [hg, hq, ht]
  · intro s a delta e
    unfold Syndicate.update_reputation
    repeat' split
    all_goals intro h
    all_goals first | rfl | simp_all
  · intro s a amt e
    unfold Syndicate.record_contribution
    repeat' split
    all_goals intro h
    all_goals first | rfl | simp_all
  · intro c now d e
    unfold DelegationChain.add
    repeat' split
    all_goals intro h
    all_goals first | rfl | simp_all

theorem C9_witness :
    (c3s1.add_founder 0 "other").1 = .error .FounderAlreadySet ∧
    (c3s1.add_founder 0 "other").2 = c3s1 :=
  ⟨by decide, C9_error_frame.1 c3s1 0 "other" .FounderAlreadySet (by decide)⟩

/-- C1: when `finalize_proposal` reaches the tally (the proposal exists and the
deadline guard does not fire), it computes `total_votes = votes_for +
votes_against` and `total_voting_power` as the sum of `voting_power` over all
currently active members, rejects whenever `total_votes < total_voting_power /
5` (integer division) regardless of the for/against split, and when
`total_votes` exactly equals `total_voting_power / 5` the quorum is met and the
pass rule is applied. -/
theorem C1_quorum (s : Syndicate) (now : Nat) (pid : String) (p : Proposal)
    (hp : lookupKV s.proposals pid = some p)
    (hg : ¬(now ≤ p.deadline ∧ p.status = .Active)) :
    (p.votes_for + p.votes_against < activeVotingPower s.members / 5 →
      s.finalize_proposal now pid =
        (.ok .Rejected, s.setProposalStatus pid p .Rejected)) ∧
    (p.votes_for + p.votes_against = activeVotingPower s.members / 5 →
      s.finalize_proposal now pid =
        (if (p.votes_for + p.votes_against) * s.config.voting_threshold_bps /
              10000 ≤ p.votes_for
         then (.ok .Passed, s.setProposalStatus pid p .Passed)
         else (.ok .Rejected, s.setProposalStatus pid p .Rejected))) := by
  constructor
  · intro hq
    simp [Syndicate.finalize_proposal, hp, hg, hq]
  · intro heq
    have hq : ¬p.votes_for + p.votes_against < activeVotingPower s.members / 5 := by
      omega
    simp [Syndicate.finalize_proposal, hp, hg, hq]

theorem C1_witness :
    exSynd.finalize_proposal 200 "syn-3" =
      (.ok .Rejected,
       exSynd.setProposalStatus "syn-3" (mkProposal "syn-3" 100 100) .Rejected) ∧
    exSynd.finalize_proposal 200 "syn-4" =
      (.ok .Passed,
       exSynd.setProposalStatus "syn-4" (mkProposal "syn-4" 200 200) .Passed) := by
  constructor
  · exact (C1_quorum exSynd 200 "syn-3" (mkProposal "syn-3" 100 100)
      (by decide) (by decide)).1 (by decide)
  · have h := (C1_quorum exSynd 200 "syn-4" (mkProposal "syn-4" 200 200)
      (by decide) (by decide)).2 (by decide)
    rw [h]; decide

/-- C2: for every proposal that meets quorum, `finalize_proposal` returns
Passed iff `votes_for ≥ (total_votes × voting_threshold_bps) / 10000` with
truncating integer arithmetic over votes cast, and Rejected otherwise; in
particular with `voting_threshold_bps = 5000`, tallies (1500, 500) yield Passed
and (900, 1100) yield Rejected. -/
theorem C2_pass_rule :
    (∀ (s : Syndicate) (now : Nat) (pid : String) (p : Proposal),
      lookupKV s.proposals pid = some p →
      ¬(now ≤ p.deadline ∧ p.status = .Active) →
      ¬p.votes_for + p.votes_against < activeVotingPower s.members / 5 →
      s.finalize_proposal now pid =
        (if (p.votes_for + p.votes_against) * s.config.voting_threshold_bps /
              10000 ≤ p.votes_for
         then (.ok .Passed, s.setProposalStatus pid p .Passed)
         else (.ok .Rejected, s.setProposalStatus pid p .Rejected))) ∧
    (exSynd.finalize_proposal 200 "syn-1").1 = .ok .Passed ∧
    (exSynd.finalize_proposal 200 "syn-2").1 = .ok .Rejected := by
  refine ⟨?_, by decide, by decide⟩
  intro s now pid p hp hg hq
  simp [Syndicate.finalize_proposal, hp, hg, hq]

theorem C2_witness :
    exSynd.finalize_proposal 200 "syn-1" =
      (.ok .Passed,
       exSynd.setProposalStatus "syn-1" (mkProposal "syn-1" 1500 500) .Passed) := by
  have h := C2_pass_rule.1 exSynd 200 "syn-1" (mkProposal "syn-1" 1500 500)
    (by decide) (by decide) (by decide)
  rw [h]; decide

/-- C7 counterexample: the claim fails as stated at a member whose stored
reputation is `2^31` (a value `add_member` accepts unchecked): the source casts
the `u32` reputation to `i32` before adding the delta, so the cast wraps to
`-2^31` and the clamp yields 0, while the claimed formula (old value plus delta
clamped to `[0, 1000]`) yields 1000. -/
theorem C7_counterexample :
    (bigSynd.update_reputation "a" 0).1 = .ok 0 ∧
    specClaimedReputation (2 ^ 31) 0 = 1000 ∧
    (bigSynd.update_reputation "a" 0).1 ≠ .ok (specClaimedReputation (2 ^ 31) 0) := by
  refine ⟨by decide, by decide, by decide⟩

/-- C7 (amended): for every member whose stored reputation is below `2^31` (in
particular every reputation in the documented 0-1000 range) and every signed
delta, `update_reputation` sets the member's reputation to the old value plus
delta clamped to `[0, 1000]`, returns the new value, and sets the voting power
equal to the new reputation; it fails with `NotMember` for unknown ids. -/
theorem C7_update_reputation (s : Syndicate) (agent : String) (delta : Int) :
    (lookupKV s.members agent = none →
      s.update_reputation agent delta = (.error (.NotMember agent), s)) ∧
    (∀ m, lookupKV s.members agent = some m → m.reputation < 2 ^ 31 →
      s.update_reputation agent delta =
        (.ok (specClaimedReputation m.reputation delta),
         { s with
             members := insertKV s.members agent
               { m with
                   reputation := specClaimedReputation m.reputation delta
                   voting_power := specClaimedReputation m.reputation delta } })) := by
  constructor
  · intro hm
    simp [Syndicate.update_reputation, hm]
  · intro m hm hrep
    have hclamp : (clampRep (u32AsI32 m.reputation + delta)).toNat =
        specClaimedReputation m.reputation delta := by
      rw [show u32AsI32 m.reputation = (m.reputation : Int) by
        unfold u32AsI32; rw [if_pos hrep]]
      rfl
    simp [Syndicate.update_reputation, hm, hclamp]

theorem validateLoop_ok_iff (now : Nat) (l : List Delegation) :
    ∀ (prev : Option Delegation) (i : Nat),
      validateLoop now prev i l = .ok () ↔
        ((∀ d ∈ l, now < d.expires_at) ∧
          List.Chain' linksTo (prev.toList ++ l)) := by
  induction l with
  | nil =>
    intro prev i
    cases prev <;> simp [validateLoop]
  | cons d rest ih =>
    intro prev i
    by_cases hv : now < d.expires_at
    · have hb : d.is_valid now = true := by simp [Delegation.is_valid, hv]
      cases prev with
      | none =>
        rw [show validateLoop now none i (d :: rest) =
              validateLoop now (some d) (i + 1) rest by simp [validateLoop, hb]]
        rw [ih (some d) (i + 1)]
        simp [hv]
      | some p =>
        by_cases hc : p.delegatee_id = d.delegator_id
        · rw [show validateLoop now (some p) i (d :: rest) =
                validateLoop now (some d) (i + 1) rest by
              simp [validateLoop, hb, hc]]
          rw [ih (some d) (i + 1)]
          simp [hv, List.chain'_cons, linksTo, hc]
        · simp [validateLoop, hb, hc, List.chain'_cons, linksTo]
    · have hb : d.is_valid now = false := by simp [Delegation.is_valid, hv]
      cases prev <;> simp [validateLoop, hb, hv]

theorem validateLoop_expired_at (now : Nat) (d : Delegation)
    (l₂ : List Delegation) (hd : ¬now < d.expires_at) :
    ∀ (l₁ : List Delegation) (prev : Option Delegation) (i : Nat),
      (∀ e ∈ l₁, now < e.expires_at) →
      List.Chain' linksTo (prev.toList ++ l₁) →
      validateLoop now prev i (l₁ ++ d :: l₂) =
        .error (.ExpiredAtIndex (i + l₁.length)) := by
  intro l₁
  induction l₁ with
  | nil =>
    intro prev i _ _
    have hb : d.is_valid now = false := by simp [Delegation.is_valid, hd]
    simp [validateLoop, hb]
  | cons a l₁ ih =>
    intro prev i hval hchain
    have ha : a.is_valid now = true := by
      simp [Delegation.is_valid, hval a (by simp)]
    have hval' : ∀ e ∈ l₁, now < e.expires_at := fun e he =>
      hval e (by simp [he])
    have hidx : i + (a :: l₁).length = (i + 1) + l₁.length := by
      simp; omega
    cases prev with
    | none =>
      have hrec := ih (some a) (i + 1) hval' hchain
      rw [show (a :: l₁) ++ d :: l₂ = a :: (l₁ ++ d :: l₂) by simp]
      rw [show validateLoop now none i (a :: (l₁ ++ d :: l₂)) =
            validateLoop now (some a) (i + 1) (l₁ ++ d :: l₂) by
          simp [validateLoop, ha]]
      rw [hrec, hidx]
    | some p =>
      have hsplit := List.chain'_cons.mp
        (show List.Chain' linksTo (p :: a :: l₁) from hchain)
      have hpa : p.delegatee_id = a.delegator_id := hsplit.1
      have hrec := ih (some a) (i + 1) hval' hsplit.2
      rw [show (a :: l₁) ++ d :: l₂ = a :: (l₁ ++ d :: l₂) by simp]
      rw [show validateLoop now (some p) i (a :: (l₁ ++ d :: l₂)) =
            validateLoop now (some a) (i + 1) (l₁ ++ d :: l₂) by
          simp [validateLoop, ha, hpa]]
      rw [hrec, hidx]

theorem validateLoop_broken_at (now : Nat) (p d : Delegation)
    (l₂ : List Delegation) (hpv : now < p.expires_at) (hdv : now < d.expires_at)
    (hbrk : ¬linksTo p d) :
    ∀ (l₁ : List Delegation) (prev : Option Delegation) (i : Nat),
      (∀ e ∈ l₁, now < e.expires_at) →
      List.Chain' linksTo (prev.toList ++ (l₁ ++ [p])) →
      validateLoop now prev i (l₁ ++ p :: d :: l₂) =
        .error (.ChainBrokenAtIndex (i + l₁.length + 1)) := by
  have hpb : p.is_valid now = true := by simp [Delegation.is_valid, hpv]
  have hdb : d.is_valid now = true := by simp [Delegation.is_valid, hdv]
  have hbrk' : ¬p.delegatee_id = d.delegator_id := hbrk
  intro l₁
  induction l₁ with
  | nil =>
    intro prev i _ hchain
    cases prev with
    | none =>
      simp [validateLoop, hpb, hdb, hbrk']
    | some q =>
      have hqp : q.delegatee_id = p.delegator_id :=
        (List.chain'_cons.mp
          (show List.Chain' linksTo (q :: [p]) from hchain)).1
      simp [validateLoop, hpb, hqp, hdb, hbrk']
  | cons a l₁ ih =>
    intro prev i hval hchain
    have ha : a.is_valid now = true := by
      simp [Delegation.is_valid, hval a (by simp)]
    have hval' : ∀ e ∈ l₁, now < e.expires_at := fun e he =>
      hval e (by simp [he])
    have hidx : i + (a :: l₁).length + 1 = (i + 1) + l₁.length + 1 := by
      simp; omega
    cases prev with
    | none =>
      have hrec := ih (some a) (i + 1) hval'
        (show List.Chain' linksTo (a :: (l₁ ++ [p])) from hchain)
      rw [show (a :: l₁) ++ p :: d :: l₂ = a :: (l₁ ++ p :: d :: l₂) by simp]
      rw [show validateLoop now none i (a :: (l₁ ++ p :: d :: l₂)) =
            validateLoop now (some a) (i + 1) (l₁ ++ p :: d :: l₂) by
          simp [validateLoop, ha]]
      rw [hrec, hidx]
    | some q =>
      have hsplit := List.chain'_cons.mp
        (show List.Chain' linksTo (q :: a :: (l₁ ++ [p])) from hchain)
      have hqa : q.delegatee_id = a.delegator_id := hsplit.1
      have hrec := ih (some a) (i + 1) hval' hsplit.2
      rw [show (a :: l₁) ++ p :: d :: l₂ = a :: (l₁ ++ p :: d :: l₂) by simp]
      rw [show validateLoop now (some q) i (a :: (l₁ ++ p :: d :: l₂)) =
            validateLoop now (some a) (i + 1) (l₁ ++ p :: d :: l₂) by
          simp [validateLoop, ha, hqa]]
      rw [hrec, hidx]

/-- C4: `validate` succeeds iff every link is unexpired and every consecutive
pair of links is continuous; when continuity is broken at index `k = |l₁| + 1`
and that is the first violation walked (every link up to and including index
`k - 1` unexpired and continuous, link `k` itself unexpired — expiry is checked
before continuity at each index), `validate` fails with `ChainBrokenAtIndex`
reporting exactly `k`; when the link at index `i = |l₁|` is expired and it is
the first violation, `validate` fails with `ExpiredAtIndex i`. -/
theorem C4_validate (c : DelegationChain) (now : Nat) :
    (c.validate now = .ok () ↔
      ((∀ d ∈ c.delegations, now < d.expires_at) ∧
        List.Chain' linksTo c.delegations)) ∧
    (∀ (l₁ : List Delegation) (p d : Delegation) (l₂ : List Delegation),
      c.delegations = l₁ ++ p :: d :: l₂ →
      (∀ e ∈ l₁ ++ [p], now < e.expires_at) →
      List.Chain' linksTo (l₁ ++ [p]) →
      now < d.expires_at →
      ¬linksTo p d →
      c.validate now = .error (.ChainBrokenAtIndex (l₁.length + 1))) ∧
    (∀ (l₁ : List Delegation) (d : Delegation) (l₂ : List Delegation),
      c.delegations = l₁ ++ d :: l₂ →
      (∀ e ∈ l₁, now < e.expires_at) →
      List.Chain' linksTo l₁ →
      ¬now < d.expires_at →
      c.validate now = .error (.ExpiredAtIndex l₁.length)) := by
  refine ⟨?_, ?_, ?_⟩
  · have h := validateLoop_ok_iff now c.delegations none 0
    simpa [DelegationChain.validate] using h
  · intro l₁ p d l₂ hdec hexp hchain hd hbrk
    have h := validateLoop_broken_at now p d l₂
      (hexp p (by simp)) hd hbrk l₁ none 0
      (fun e he => hexp e (by simp [he])) (by simpa using hchain)
    unfold DelegationChain.validate
    rw [hdec]
    simpa using h
  · intro l₁ d l₂ hdec hexp hchain hd
    have h := validateLoop_expired_at now d l₂ hd l₁ none 0 hexp
      (by simpa using hchain)
    unfold DelegationChain.validate
    rw [hdec]
    simpa using h

theorem C4_witness :
    chOk.validate 50 = .ok () ∧
    chBroken.validate 50 = .error (.ChainBrokenAtIndex 1) ∧
    chExpMid.validate 50 = .error (.ExpiredAtIndex 1) := by
  refine ⟨?_, ?_, ?_⟩
  · exact (C4_validate chOk 50).1.mpr
      ⟨by decide, by simp [chOk, List.chain'_cons, linksTo, mkDelegation]⟩
  · exact (C4_validate chBroken 50).2.1 [] (mkDelegation 1 2 100 true)
      (mkDelegation 9 3 100 true) [] (by decide) (by decide)
      (by simp) (by decide) (by decide)
  · exact (C4_validate chExpMid 50).2.2 [mkDelegation 1 2 100 true]
      (mkDelegation 2 3 10 true) [mkDelegation 3 4 100 true]
      (by decide) (by decide) (by simp) (by decide)

theorem setStatus_self (p : Proposal) (st : ProposalStatus)
    (h : p.status = st) : ({ p with status := st } : Proposal) = p := by
  cases p
  cases h
  rfl

theorem setProposalStatus_self (s : Syndicate) (pid : String) (p : Proposal)
    (st : ProposalStatus) (hstatus : p.status = st)
    (hlook : lookupKV s.proposals pid = some p) :
    s.setProposalStatus pid p st = s := by
  unfold Syndicate.setProposalStatus
  rw [setStatus_self p st hstatus, insertKV_self_of_lookupKV _ _ _ hlook]

theorem finalize_of_setStatus (s : Syndicate) (pid : String) (p : Proposal)
    (st : ProposalStatus) (now' : Nat) (hst : st ≠ .Active)
    (hbranch :
      (if p.votes_for + p.votes_against < activeVotingPower s.members / 5 then
        ProposalStatus.Rejected
      else if (p.votes_for + p.votes_against) * s.config.voting_threshold_bps /
          10000 ≤ p.votes_for then
        ProposalStatus.Passed
      else
        ProposalStatus.Rejected) = st) :
    (s.setProposalStatus pid p st).finalize_proposal now' pid =
      (.ok st, s.setProposalStatus pid p st) := by
  have hlook : lookupKV (s.setProposalStatus pid p st).proposals pid =
      some { p with status := st } := lookupKV_insertKV_self _ _ _
  have hlook' : lookupKV (s.setProposalStatus pid p st).proposals pid =
      some ({ p with status := st } : Proposal) := hlook
  have hguard : ¬(now' ≤ ({ p with status := st } : Proposal).deadline ∧
      ({ p with status := st } : Proposal).status = .Active) := by
    simp [hst]
  unfold Syndicate.finalize_proposal
  simp only [hlook]
  rw [if_neg hguard]
  by_cases hq : p.votes_for + p.votes_against < activeVotingPower s.members / 5
  · rw [if_pos hq] at hbranch
    subst hbranch
    rw [if_pos (show ({ p with status := ProposalStatus.Rejected } :
        Proposal).votes_for + ({ p with status := ProposalStatus.Rejected } :
        Proposal).votes_against < activeVotingPower
        (s.setProposalStatus pid p ProposalStatus.Rejected).members / 5 from hq)]
    rw [setProposalStatus_self _ _ _ _ rfl hlook']
  · rw [if_neg hq] at hbranch
    rw [if_neg (show ¬(({ p with status := st } : Proposal).votes_for +
        ({ p with status := st } : Proposal).votes_against < activeVotingPower
        (s.setProposalStatus pid p st).members / 5) from hq)]
    by_cases ht : (p.votes_for + p.votes_against) *
        s.config.voting_threshold_bps / 10000 ≤ p.votes_for
    · rw [if_pos ht] at hbranch
      subst hbranch
      rw [if_pos (show (({ p with status := ProposalStatus.Passed } :
          Proposal).votes_for + ({ p with status := ProposalStatus.Passed } :
          Proposal).votes_against) * (s.setProposalStatus pid p
          ProposalStatus.Passed).config.voting_threshold_bps / 10000 ≤
          ({ p with status := ProposalStatus.Passed } : Proposal).votes_for
          from ht)]
      rw [setProposalStatus_self _ _ _ _ rfl hlook']
    · rw [if_neg ht] at hbranch
      subst hbranch
      rw [if_neg (show ¬((({ p with status := ProposalStatus.Rejected } :
          Proposal).votes_for + ({ p with status := ProposalStatus.Rejected } :
          Proposal).votes_against) * (s.setProposalStatus pid p
          ProposalStatus.Rejected).config.voting_threshold_bps / 10000 ≤
          ({ p with status := ProposalStatus.Rejected } : Proposal).votes_for)
          from ht)]
      rw [setProposalStatus_self _ _ _ _ rfl hlook']

/-- C3 counterexample: a proposal that reached the terminal status Passed is
changed back to Rejected by a later operation.  The founder (voting power 1000)
passes proposal `"syn-1"`; admitting a member of voting power 100000 raises the
quorum threshold, and a second call to `finalize_proposal` — which has no
terminal-state guard — flips the recorded status from Passed to Rejected. -/
theorem C3_counterexample :
    (c3s3.finalize_proposal 200 "syn-1").1 = .ok .Passed ∧
    (c3s4.get_proposal "syn-1").map Proposal.status = some .Passed ∧
    (c3s5.finalize_proposal 400 "syn-1").1 = .ok .Rejected ∧
    ((c3s5.finalize_proposal 400 "syn-1").2.get_proposal "syn-1").map
      Proposal.status = some .Rejected := by
  refine ⟨by decide, by decide, by decide, by decide⟩

/-- C3 (amended): `vote` and the other mutators never touch a proposal's
status, and `finalize_proposal` is the only status writer; but it has no
terminal-state guard: a repeated call recomputes the tally, so it returns the
same status and leaves the state unchanged as long as the syndicate state is
unchanged in between, while intervening membership or reputation changes can
flip a terminal status (as the counterexample shows). -/
theorem C3_refinalize_stable (s : Syndicate) (now now' : Nat) (pid : String)
    (st : ProposalStatus) (s' : Syndicate)
    (h : s.finalize_proposal now pid = (.ok st, s')) :
    s'.finalize_proposal now' pid = (.ok st, s') := by
  unfold Syndicate.finalize_proposal at h
  rcases hp : lookupKV s.proposals pid with _ | p <;> simp only [hp] at h
  · simp at h
  · by_cases hg : now ≤ p.deadline ∧ p.status = .Active
    · simp [hg] at h
    · rw [if_neg hg] at h
      by_cases hq : p.votes_for + p.votes_against < activeVotingPower s.members / 5
      · rw [if_pos hq] at h
        have hst : st = .Rejected := by
          have h1 := congrArg Prod.fst h
          simp at h1
          exact h1.symm
        have hs' : s' = s.setProposalStatus pid p .Rejected :=
          (congrArg Prod.snd h).symm
        subst hst hs'
        exact finalize_of_setStatus s pid p .Rejected now' (by simp)
          (by rw [if_pos hq])
      · rw [if_neg hq] at h
        by_cases ht : (p.votes_for + p.votes_against) *
            s.config.voting_threshold_bps / 10000 ≤ p.votes_for
        · rw [if_pos ht] at h
          have hst : st = .Passed := by
            have h1 := congrArg Prod.fst h
            simp at h1
            exact h1.symm
          have hs' : s' = s.setProposalStatus pid p .Passed :=
            (congrArg Prod.snd h).symm
          subst hst hs'
          exact finalize_of_setStatus s pid p .Passed now' (by simp)
            (by rw [if_neg hq, if_pos ht])
        · rw [if_neg ht] at h
          have hst : st = .Rejected := by
            have h1 := congrArg Prod.fst h
            simp at h1
            exact h1.symm
          have hs' : s' = s.setProposalStatus pid p .Rejected :=
            (congrArg Prod.snd h).symm
          subst hst hs'
          exact finalize_of_setStatus s pid p .Rejected now' (by simp)
            (by rw [if_neg hq, if_neg ht])

theorem C3_witness :
    c3s4.finalize_proposal 999 "syn-1" = (.ok .Passed, c3s4) :=
  C3_refinalize_stable c3s3 200 999 "syn-1" .Passed c3s4 (by decide)

/-- C10: `DelegationChain::add` checks expiry only of the delegation being
appended, never of links already in the chain: on a non-empty chain whose last
link permits redelegation, appending a continuous, currently-unexpired
delegation succeeds and appends at the end even though an earlier link (at
index `|l₁|`, the first violation) has already expired, and only a subsequent
`validate` reports that earlier link via `ExpiredAtIndex`. -/
theorem C10_add_ignores_earlier_expiry (c : DelegationChain) (now : Nat)
    (d last : Delegation)
    (hlast : c.delegations.getLast? = some last)
    (hcont : last.delegatee_id = d.delegator_id)
    (hred : last.can_redelegate = true)
    (hd : now < d.expires_at)
    (l₁ : List Delegation) (e : Delegation) (l₂ : List Delegation)
    (hdec : c.delegations = l₁ ++ e :: l₂)
    (hexp : ¬now < e.expires_at)
    (hpre : ∀ x ∈ l₁, now < x.expires_at)
    (hchain : List.Chain' linksTo l₁) :
    c.add now d = (.ok (), ⟨c.delegations ++ [d]⟩) ∧
    (⟨c.delegations ++ [d]⟩ : DelegationChain).validate now =
      .error (.ExpiredAtIndex l₁.length) := by
  constructor
  · simp [DelegationChain.add, hlast, hcont, hred, Delegation.is_valid, hd]
  · have hsplit : c.delegations ++ [d] = l₁ ++ e :: (l₂ ++ [d]) := by
      rw [hdec]; simp
    have h := validateLoop_expired_at now e (l₂ ++ [d]) hexp l₁ none 0
      hpre hchain
    unfold DelegationChain.validate
    rw [hsplit]
    simpa using h

theorem C10_witness :
    chEarlyExpired.add 50 (mkDelegation 3 4 100 true) =
      (.ok (),
       ⟨chEarlyExpired.delegations ++ [mkDelegation 3 4 100 true]⟩) ∧
    (⟨chEarlyExpired.delegations ++ [mkDelegation 3 4 100 true]⟩ :
        DelegationChain).validate 50 = .error (.ExpiredAtIndex 0) :=
  C10_add_ignores_earlier_expiry chEarlyExpired 50 (mkDelegation 3 4 100 true)
    (mkDelegation 2 3 100 true) (by decide) (by decide) (by decide) (by decide)
    [] (mkDelegation 1 2 10 true) [mkDelegation 2 3 100 true]
    (by decide) (by decide) (by decide) (by simp)

theorem C7_witness :
    exSynd.update_reputation "m1" (-100) =
      (.ok (specClaimedReputation 1000 (-100)),
       { exSynd with
           members := insertKV exSynd.members "m1"
             { mkMember "m1" 1000 with
                 reputation := specClaimedReputation 1000 (-100)
                 voting_power := specClaimedReputation 1000 (-100) } }) :=
  (C7_update_reputation exSynd "m1" (-100)).2 (mkMember "m1" 1000)
    (by decide) (by decide)

end VelvelSentinal
